import Mathlib

/-!
Verification of the node-xmlrpc codec (serializer, deserializer, date
formatter).  The XML tokenizer (sax), the XML writer (xmlbuilder) and the
JavaScript runtime primitives (parseInt, parseFloat, Number-to-string,
Buffer base64, Date) are external collaborators of the repository; they are
modelled here from their documented (ECMA-262 / Node) semantics at the
fidelity the source code exercises, each with a doc comment stating its
scope.  The repository's own code (src/serializer.mts, src/date_formatter.mts
and the Deserializer) is translated definition by definition.
-/

namespace NodeXmlrpc

/-- A single apostrophe, used to build the source's error message strings. -/
def sq : String := String.singleton (Char.ofNat 39)

/-- Decimal digits of a natural number, fuel-based so that the kernel can
evaluate it (`fuel ≥ n` always suffices; callers pass `n` itself). -/
def natDigitsAux : Nat → Nat → List Char
  | 0, _ => []
  | f + 1, n =>
    if n < 10 then [Char.ofNat (48 + n)]
    else natDigitsAux f (n / 10) ++ [Char.ofNat (48 + n % 10)]

/-- Decimal string of a natural number. -/
def natToString (n : Nat) : String := String.mk (natDigitsAux (n + 1) n)

/-- Numeric value of a list of decimal digit characters. -/
def digitsVal (ds : List Char) : Nat :=
  ds.foldl (fun acc c => acc * 10 + (c.toNat - 48)) 0

/-- ECMA-262 Number::toString for mathematically integral values, radix 10:
plain decimal digits for |m| < 10^21, otherwise the exponential form
"d[.ddd]e+NN" built from the digits with trailing zeros stripped.  This is the
exact-integer idealization: a JS number with |m| ≥ 2^53 may already have been
rounded by the float64 representation, which is not modelled (the code under
verification only exercises this function on small integers). -/
def jsNatToString (n : Nat) : String :=
  if n < 10 ^ 21 then natToString n
  else
    let ds := natDigitsAux (n + 1) n
    let stripped := (ds.reverse.dropWhile (· = '0')).reverse
    let e := ds.length - 1
    (if stripped.length ≤ 1 then String.mk stripped
     else String.mk (stripped.take 1) ++ "." ++ String.mk (stripped.drop 1))
      ++ "e+" ++ natToString e

/-- ECMA-262 Number::toString of an integral JS number (see `jsNatToString`). -/
def jsIntToString (n : Int) : String :=
  if n < 0 then "-" ++ jsNatToString n.natAbs else jsNatToString n.natAbs

/-- The white-space characters ECMA-262 StrWhiteSpaceChar covers, restricted to
the ASCII/Latin-1 ones (the further Unicode space characters are not modelled;
none appears in the documents this codec exchanges). -/
def isJsWhite (c : Char) : Bool :=
  c = ' ' || c = '\t' || c = '\n' || c = '\r' ||
  c = Char.ofNat 11 || c = Char.ofNat 12 || c = Char.ofNat 160

/-- Split an optional leading sign: whether it was '-', and the rest. -/
def splitSign : List Char → Bool × List Char
  | '-' :: r => (true, r)
  | '+' :: r => (false, r)
  | r => (false, r)

/-- ECMA-262 parseInt(s, 10): skip leading white space, read an optional sign,
then the longest run of leading decimal digits, ignoring everything after it;
NaN (here `none`) exactly when that run is empty.  The returned value is the
exact mathematical integer (see `jsNatToString` on the float64 idealization
beyond 2^53). -/
def jsParseInt10 (s : String) : Option Int :=
  let (neg, cs) := splitSign (s.data.dropWhile isJsWhite)
  let ds := cs.takeWhile Char.isDigit
  if ds.isEmpty then none
  else some ((if neg then -1 else 1) * (digitsVal ds : Int))

/-- Whether a string is numeric text in parseInt's sense: after optional
leading white space and an optional sign there stands at least one decimal
digit.  Stated separately from `jsParseInt10` so that "fails exactly on
non-numeric text" connects two independent definitions. -/
def numericText (s : String) : Bool :=
  match (splitSign (s.data.dropWhile isJsWhite)).2 with
  | c :: _ => c.isDigit
  | [] => false

/-- ECMA-262 parseFloat acceptance: after white space and an optional sign,
the text begins with "Infinity", a decimal digit, or a dot followed by a
decimal digit; parseFloat yields NaN exactly otherwise. -/
def jsParseFloatAccepts (s : String) : Bool :=
  let cs := s.data.dropWhile isJsWhite
  let cs :=
    match cs with
    | '-' :: r => r
    | '+' :: r => r
    | r => r
  match cs with
  | 'I' :: 'n' :: 'f' :: 'i' :: 'n' :: 'i' :: 't' :: 'y' :: _ => true
  | '.' :: c :: _ => c.isDigit
  | c :: _ => c.isDigit
  | [] => false

/-- The longest decimal-literal prefix parseFloat consumes (sign, digits,
optional fraction, optional well-formed exponent), as text.  Used to carry a
double's identity in the value model; the float64 value it denotes is not
modelled (no claim depends on a double's numeric value). -/
def jsParseFloatLiteral (s : String) : String :=
  let cs := s.data.dropWhile isJsWhite
  let (sgn, cs) : List Char × List Char :=
    match cs with
    | '-' :: r => (['-'], r)
    | '+' :: r => (['+'], r)
    | r => ([], r)
  match cs with
  | 'I' :: 'n' :: 'f' :: 'i' :: 'n' :: 'i' :: 't' :: 'y' :: _ =>
    String.mk (sgn ++ "Infinity".data)
  | _ =>
    let d1 := cs.takeWhile Char.isDigit
    let rest1 := cs.drop d1.length
    let (frac, rest2) : List Char × List Char :=
      match rest1 with
      | '.' :: r => ('.' :: r.takeWhile Char.isDigit, r.drop (r.takeWhile Char.isDigit).length)
      | r => ([], r)
    if d1.isEmpty && frac.length ≤ 1 then ""   -- no digits at all: NaN
    else
      let expPart : List Char :=
        match rest2 with
        | e :: r =>
          if e = 'e' || e = 'E' then
            match r with
            | '-' :: r2 =>
              let ed := r2.takeWhile Char.isDigit
              if ed.isEmpty then [] else e :: '-' :: ed
            | '+' :: r2 =>
              let ed := r2.takeWhile Char.isDigit
              if ed.isEmpty then [] else e :: '+' :: ed
            | r2 =>
              let ed := r2.takeWhile Char.isDigit
              if ed.isEmpty then [] else e :: ed
          else []
        | [] => []
      String.mk (sgn ++ d1 ++ frac ++ expPart)

/-- The Deserializer's I8 pattern /^-?\d+$/: an optional leading minus followed
by one or more decimal digits and nothing else. -/
def i8Shape (s : String) : Bool :=
  match s.data with
  | '-' :: rest => !rest.isEmpty && rest.all Char.isDigit
  | cs => !cs.isEmpty && cs.all Char.isDigit

/-!
## The value model

`XMLRPCValue` from the Deserializer (null | boolean | number | string | Date |
Buffer | array | object), plus JS `undefined`, which the endStruct loop can
store when a struct segment has odd length.  JS numbers are split into the
integral case (`vint`, exact-integer idealization) and the non-integral case
(`vdouble`, carrying the parseFloat literal; float64 values are not modelled —
no claim depends on a double's numeric value).  A Date carries its millisecond
timestamp, `none` for an Invalid Date. -/
mutual

inductive XVal where
  | vnull
  | vundef
  | vbool (b : Bool)
  | vint (n : Int)
  | vdouble (lit : String)
  | vstr (s : String)
  | vdate (ts : Option Int)
  | vbuf (bytes : List Nat)
  | varr (elems : XValList)
  | vobj (fields : XFieldList)

/-- A JS array of values (a mutual family rather than `List XVal` so that the
recursive functions below are structural and kernel-evaluable). -/
inductive XValList where
  | nil
  | cons (head : XVal) (tail : XValList)

/-- A JS object: fields in property order (existing keys keep their position
on reassignment, new keys append — see `objAssign`). -/
inductive XFieldList where
  | fnil
  | fcons (key : String) (val : XVal) (rest : XFieldList)

end

/-- Build an `XValList` from a `List XVal`. -/
def XValList.ofList : List XVal → XValList
  | [] => .nil
  | x :: xs => .cons x (XValList.ofList xs)

/-!
## Calendar arithmetic (for the Date model)

Days-from-civil and civil-from-days use the standard era/year-of-era
decomposition of the proleptic Gregorian calendar, with floor division. -/

/-- Days since 1970-01-01 of the civil date y-m-d (m in 1..12). -/
def daysFromCivil (y m d : Int) : Int :=
  let y := if m ≤ 2 then y - 1 else y
  let era := Int.fdiv y 400
  let yoe := y - era * 400
  let mp := if m > 2 then m - 3 else m + 9
  let doy := (Int.fdiv (153 * mp + 2) 5) + d - 1
  let doe := yoe * 365 + Int.fdiv yoe 4 - Int.fdiv yoe 100 + doy
  era * 146097 + doe - 719468

/-- Civil date (y, m, d) of a count of days since 1970-01-01. -/
def civilFromDays (z : Int) : Int × Int × Int :=
  let z := z + 719468
  let era := Int.fdiv z 146097
  let doe := z - era * 146097
  let yoe := Int.fdiv (doe - Int.fdiv doe 1460 + Int.fdiv doe 36524 - Int.fdiv doe 146096) 365
  let y := yoe + era * 400
  let doy := doe - (365 * yoe + Int.fdiv yoe 4 - Int.fdiv yoe 100)
  let mp := Int.fdiv (5 * doy + 2) 153
  let d := doy - Int.fdiv (153 * mp + 2) 5 + 1
  let m := mp + (if mp < 10 then 3 else -9)
  (y + (if m ≤ 2 then 1 else 0), m, d)

/-- Calendar fields (y, mo, d, h, mi, s, ms) of a millisecond timestamp read
as UTC. -/
def civilFromMs (t : Int) : Int × Int × Int × Int × Int × Int × Int :=
  let days := Int.fdiv t 86400000
  let rem := t - days * 86400000
  let (y, mo, d) := civilFromDays days
  (y, mo, d, Int.fdiv rem 3600000, Int.fdiv (Int.emod rem 3600000) 60000,
   Int.fdiv (Int.emod rem 60000) 1000, Int.emod rem 1000)

/-- Days in a Gregorian month. -/
def daysInMonth (y m : Int) : Int :=
  if m = 2 then
    if Int.emod y 4 = 0 && (Int.emod y 100 ≠ 0 || Int.emod y 400 = 0) then 29 else 28
  else if m = 4 || m = 6 || m = 9 || m = 11 then 30
  else 31

/-!
## JS String(...) coercion of values (used for struct keys)

`endStruct` coerces the even-position stack entries with `String(items[i])`.
The cases below follow ECMA-262 ToString; the Date rendering and the Buffer
UTF-8 decoding are external-runtime behaviors modelled at the fidelity noted
in their doc comments (they can only matter when an adversarial document puts
a date or a buffer in a struct's key position). -/

/-- Left-pad a string with zeros to the given length (the source's zeroPad,
whose number argument has already been turned into text by `"" + digit`; the
source's while loop prepends one zero per missing position). -/
def zeroPad (digit : String) (len : Nat) : String :=
  String.mk (List.replicate (len - digit.length) '0') ++ digit

/-- Two-digit zero-padded rendering of a natural number. -/
def pad2 (n : Nat) : String := zeroPad (natToString n) 2

/-- Three-digit zero-padded rendering of a natural number. -/
def pad3 (n : Nat) : String := zeroPad (natToString n) 3

/-- V8's Date toString for a valid Date, given the environment's
getTimezoneOffset() value `tz` (minutes, positive = behind UTC):
"Www Mmm DD YYYY HH:MM:SS GMT±HHMM".  The trailing locale-dependent time-zone
name in parentheses is not modelled (it is not derivable from the offset).
An Invalid Date prints "Invalid Date". -/
def jsDateToString (tz : Int) (ts : Option Int) : String :=
  match ts with
  | none => "Invalid Date"
  | some t =>
    let lt := t - tz * 60000
    let (y, mo, d, h, mi, s, _) := civilFromMs lt
    let days := Int.fdiv lt 86400000
    let wd := (Int.emod (days + 4) 7).toNat
    let wdName := (["Sun", "Mon", "Tue", "Wed", "Thu", "Fri", "Sat"].getD wd "")
    let moName :=
      (["Jan", "Feb", "Mar", "Apr", "May", "Jun", "Jul", "Aug", "Sep", "Oct",
        "Nov", "Dec"].getD (mo - 1).toNat "")
    let off := -tz
    let sign := if off < 0 then "-" else "+"
    wdName ++ " " ++ moName ++ " " ++ pad2 d.toNat ++ " " ++ natToString y.toNat ++ " " ++
      pad2 h.toNat ++ ":" ++ pad2 mi.toNat ++ ":" ++ pad2 s.toNat ++ " GMT" ++
      sign ++ pad2 (Int.fdiv off.natAbs 60).toNat ++ pad2 (Int.emod off.natAbs 60).toNat

/-- UTF-8 decoding of a byte list (Node Buffer.prototype.toString()), fuel-based
for kernel evaluation; malformed sequences become U+FFFD.  Modelled for
well-formed sequences plus a single replacement character per bad byte (Node's
exact resynchronization on truncated multi-byte sequences is approximated). -/
def utf8DecodeAux : Nat → List Nat → List Char
  | 0, _ => []
  | _, [] => []
  | f + 1, b :: rest =>
    let cont (x : Nat) : Bool := 128 ≤ x && x < 192
    let mk (n : Nat) : Char := if h : n.isValidChar then Char.ofNatAux n h else Char.ofNat 65533
    if b < 128 then mk b :: utf8DecodeAux f rest
    else if 194 ≤ b && b < 224 then
      match rest with
      | b2 :: r2 =>
        if cont b2 then mk ((b - 192) * 64 + (b2 - 128)) :: utf8DecodeAux f r2
        else Char.ofNat 65533 :: utf8DecodeAux f rest
      | [] => [Char.ofNat 65533]
    else if 224 ≤ b && b < 240 then
      match rest with
      | b2 :: b3 :: r3 =>
        if cont b2 && cont b3 then
          let n := (b - 224) * 4096 + (b2 - 128) * 64 + (b3 - 128)
          if 2048 ≤ n && ¬ (55296 ≤ n && n ≤ 57343) then mk n :: utf8DecodeAux f r3
          else Char.ofNat 65533 :: utf8DecodeAux f rest
        else Char.ofNat 65533 :: utf8DecodeAux f rest
      | _ => Char.ofNat 65533 :: utf8DecodeAux f rest.tail
    else if 240 ≤ b && b < 245 then
      match rest with
      | b2 :: b3 :: b4 :: r4 =>
        if cont b2 && cont b3 && cont b4 then
          let n := (b - 240) * 262144 + (b2 - 128) * 4096 + (b3 - 128) * 64 + (b4 - 128)
          if 65536 ≤ n && n ≤ 1114111 then mk n :: utf8DecodeAux f r4
          else Char.ofNat 65533 :: utf8DecodeAux f rest
        else Char.ofNat 65533 :: utf8DecodeAux f rest
      | _ => Char.ofNat 65533 :: utf8DecodeAux f rest.tail
    else Char.ofNat 65533 :: utf8DecodeAux f rest

/-- Node Buffer.prototype.toString() with the default utf8 encoding. -/
def bufferToString (bs : List Nat) : String := String.mk (utf8DecodeAux (bs.length + 1) bs)

mutual

/-- ECMA-262 ToString of a value, given the environment's time-zone offset
(needed for the Date case).  Arrays join their elements with commas, null and
undefined elements joining as empty text; plain objects print
"[object Object]". -/
def jsToString (tz : Int) : XVal → String
  | .vnull => "null"
  | .vundef => "undefined"
  | .vbool b => if b then "true" else "false"
  | .vint n => jsIntToString n
  | .vdouble lit => lit
  | .vstr s => s
  | .vdate ts => jsDateToString tz ts
  | .vbuf bs => bufferToString bs
  | .varr xs => jsArrJoin tz xs
  | .vobj _ => "[object Object]"
termination_by structural v => v

/-- Array.prototype.toString: elements joined with commas, null and undefined
elements joining as empty text. -/
def jsArrJoin (tz : Int) : XValList → String
  | .nil => ""
  | .cons .vnull .nil => ""
  | .cons .vundef .nil => ""
  | .cons x .nil => jsToString tz x
  | .cons .vnull rest => "," ++ jsArrJoin tz rest
  | .cons .vundef rest => "," ++ jsArrJoin tz rest
  | .cons x rest => jsToString tz x ++ "," ++ jsArrJoin tz rest
termination_by structural l => l

end

/-!
## Base64 (Node Buffer)

`Buffer.from(data, "base64")` never throws: it decodes forgivingly, ignoring
characters outside the base64 alphabet (including '=' padding and white
space), and truncates a trailing group of a single character. -/

/-- Value of a base64 alphabet character, `none` for everything else. -/
def b64Val (c : Char) : Option Nat :=
  if 'A' ≤ c && c ≤ 'Z' then some (c.toNat - 65)
  else if 'a' ≤ c && c ≤ 'z' then some (c.toNat - 97 + 26)
  else if '0' ≤ c && c ≤ '9' then some (c.toNat - 48 + 52)
  else if c = '+' then some 62
  else if c = '/' then some 63
  else none

/-- Decode a list of 6-bit values into bytes (4 values to 3 bytes; trailing
groups of 2 or 3 values yield 1 or 2 bytes; a trailing single value is
dropped). -/
def b64Groups : List Nat → List Nat
  | a :: b :: c :: d :: rest =>
    (a * 4 + b / 16) :: ((b % 16) * 16 + c / 4) :: ((c % 4) * 64 + d) :: b64Groups rest
  | [a, b, c] => [a * 4 + b / 16, (b % 16) * 16 + c / 4]
  | [a, b] => [a * 4 + b / 16]
  | _ => []

/-- Node Buffer.from(s, "base64"): total, forgiving decoding. -/
def bufferFromBase64 (s : String) : List Nat :=
  b64Groups (s.data.filterMap b64Val)

/-- The base64 alphabet character of a 6-bit value. -/
def b64Char (n : Nat) : Char :=
  if n < 26 then Char.ofNat (65 + n)
  else if n < 52 then Char.ofNat (97 + n - 26)
  else if n < 62 then Char.ofNat (48 + n - 52)
  else if n = 62 then '+'
  else '/'

/-- Node Buffer.prototype.toString("base64"): standard encoding with '='
padding. -/
def bufferToBase64 : List Nat → String
  | a :: b :: c :: rest =>
    String.mk [b64Char (a / 4), b64Char ((a % 4) * 16 + b / 16),
               b64Char ((b % 16) * 4 + c / 64), b64Char (c % 64)] ++ bufferToBase64 rest
  | [a, b] =>
    String.mk [b64Char (a / 4), b64Char ((a % 4) * 16 + b / 16), b64Char ((b % 16) * 4), '=']
  | [a] => String.mk [b64Char (a / 4), b64Char ((a % 4) * 16), '=', '=']
  | [] => ""

/-!
## DateFormatter (src/date_formatter.mts)

`decodeIso8601` matches the input against the ISO8601 regular expression
    ([0-9]{4})([-]?([0-9]{2}))([-]?([0-9]{2}))
    (T([0-9]{2})(((:?([0-9]{2}))?((:?([0-9]{2}))?(\.([0-9]+))?))?)
    (Z|([+-]([0-9]{2}(:?([0-9]{2}))?)))?)?
(unanchored: String.prototype.match finds the leftmost match), reassembles the
captures into a normalized date string with "01"/"00"/"000" defaults, appends
the captured offset (plus "00" when the offset has hours but no minutes) or —
when no offset was captured — `formatCurrentOffset` of the current machine
offset, and gives that string to `new Date(...)`.

The matcher below is the regex's denotation.  Every quantified subpattern is
deterministic: `[-]?` and `:?` before `[0-9]{2}` commit (a '-' or ':' cannot
start the digit alternative, so failed optional groups consume nothing), all
later groups are optional, and there is no end anchor, so no backtracking
across groups can occur. -/

/-- The time-zone environment: the value `new Date().getTimezoneOffset()`
returns (minutes, positive when the local zone is behind UTC).  Passed
explicitly to every definition that reads the machine clock's zone. -/
abbrev TzOffset := Int

/-- Read exactly two digit characters. -/
def read2 : List Char → Option (String × List Char)
  | a :: b :: rest => if a.isDigit && b.isDigit then some (String.mk [a, b], rest) else none
  | _ => none

/-- Read exactly four digit characters. -/
def read4 : List Char → Option (String × List Char)
  | a :: b :: c :: d :: rest =>
    if a.isDigit && b.isDigit && c.isDigit && d.isDigit then
      some (String.mk [a, b, c, d], rest)
    else none
  | _ => none

/-- `[-]?([0-9]{2})`: an optional hyphen then two digits. -/
def readDash2 : List Char → Option (String × List Char)
  | '-' :: rest => read2 rest
  | cs => read2 cs

/-- `(:?([0-9]{2}))?`: an optional colon then two digits; returns the digit
capture and the raw consumed text, or `none` (consuming nothing) when the
group does not match. -/
def readColon2 (cs : List Char) : Option (String × String × List Char) :=
  match cs with
  | ':' :: rest =>
    match read2 rest with
    | some (s, r) => some (s, ":" ++ s, r)
    | none => none
  | _ =>
    match read2 cs with
    | some (s, r) => some (s, s, r)
    | none => none

/-- `(\.([0-9]+))?`: an optional dot then one or more digits. -/
def readFrac (cs : List Char) : Option (String × List Char) :=
  match cs with
  | '.' :: rest =>
    let ds := rest.takeWhile Char.isDigit
    if ds.isEmpty then none else some (String.mk ds, rest.drop ds.length)
  | _ => none

/-- The offset capture: raw matched text of group 17 ("Z" or sign and digits),
whether the numbered-offset group (19) matched, and whether its minutes
group (20) matched. -/
structure OffCapture where
  raw : String
  numeric : Bool
  hasMinutes : Bool

/-- `(Z|([+-]([0-9]{2}(:?([0-9]{2}))?)))?`. -/
def readOffset (cs : List Char) : Option OffCapture × List Char :=
  match cs with
  | 'Z' :: rest => (some ⟨"Z", false, false⟩, rest)
  | c :: rest =>
    if c = '+' || c = '-' then
      match read2 rest with
      | some (hh, r1) =>
        match readColon2 r1 with
        | some (_, rawMM, r2) =>
          (some ⟨String.mk [c] ++ hh ++ rawMM, true, true⟩, r2)
        | none => (some ⟨String.mk [c] ++ hh, true, false⟩, r1)
      | none => (none, cs)
    else (none, cs)
  | [] => (none, cs)

/-- The captures `decodeIso8601` reads: groups 1 (year), 3 (month), 5 (day),
7 (hour), 11 (minute), 14 (second), 16 (fraction) and the offset group. -/
structure IsoCaptures where
  year : String
  month : String
  day : String
  hour : Option String
  minute : Option String
  second : Option String
  frac : Option String
  offset : Option OffCapture

/-- Match the ISO8601 pattern at the start of `cs`. -/
def isoMatchAt (cs : List Char) : Option IsoCaptures :=
  match read4 cs with
  | none => none
  | some (y, r0) =>
    match readDash2 r0 with
    | none => none
    | some (mo, r1) =>
      match readDash2 r1 with
      | none => none
      | some (d, r2) =>
        match r2 with
        | 'T' :: r3 =>
          match read2 r3 with
          | none => some ⟨y, mo, d, none, none, none, none, none⟩
          | some (h, r4) =>
            let (mi, r5) : Option String × List Char :=
              match readColon2 r4 with
              | some (s, _, r) => (some s, r)
              | none => (none, r4)
            let (se, r6) : Option String × List Char :=
              match readColon2 r5 with
              | some (s, _, r) => (some s, r)
              | none => (none, r5)
            let (fr, r7) : Option String × List Char :=
              match readFrac r6 with
              | some (s, r) => (some s, r)
              | none => (none, r6)
            let (off, _) := readOffset r7
            some ⟨y, mo, d, some h, mi, se, fr, off⟩
        | _ => some ⟨y, mo, d, none, none, none, none, none⟩

/-- String.prototype.match: the leftmost position where the pattern matches. -/
def isoSearch : List Char → Option IsoCaptures
  | [] => none
  | l@(_ :: rest) =>
    match isoMatchAt l with
    | some caps => some caps
    | none => isoSearch rest

/-- DateFormatter.formatCurrentOffset: "Z" for offset 0, else the sign is '+'
for a negative getTimezoneOffset() and '-' for a positive one, the hours are
Math.abs(Math.floor(offset / 60)) and the minutes Math.abs(offset % 60)
(JS Math.floor is floor division, JS % is the truncated remainder). -/
def formatCurrentOffset (tz : TzOffset) : String :=
  if tz = 0 then "Z"
  else
    (if tz < 0 then "+" else "-") ++
      zeroPad (natToString (Int.fdiv tz 60).natAbs) 2 ++ ":" ++
      zeroPad (natToString (Int.tmod tz 60).natAbs) 2

/-- The date string `decodeIso8601` assembles from the captures:
year-month-day "T" hour:minute:second "." fraction, missing parts defaulting
to "01"/"00"/"000" (month and day always match when the pattern does, so
their defaults are dead code kept for parity), then the captured offset with
"00" appended when it has hours but no minutes, or the current machine offset
when none was captured. -/
def assembleIsoDate (tz : TzOffset) (c : IsoCaptures) : String :=
  String.intercalate "-" [c.year, c.month, c.day] ++ "T" ++
    String.intercalate ":" [c.hour.getD "00", c.minute.getD "00", c.second.getD "00"] ++
    "." ++ c.frac.getD "000" ++
    (match c.offset with
     | some off => off.raw ++ (if off.numeric && !off.hasMinutes then "00" else "")
     | none => formatCurrentOffset tz)

/-- Signed digit-pair value of an offset suffix "±HH:MM" / "±HHMM" in minutes,
`none` when the text has any other shape. -/
def parseOffsetSuffix (cs : List Char) : Option Int :=
  match cs with
  | sgn :: rest =>
    if sgn = '+' || sgn = '-' then
      match read2 rest with
      | some (hh, r1) =>
        let r2 := match r1 with
                  | ':' :: r => r
                  | r => r
        match read2 r2 with
        | some (mm, []) =>
          let v : Int := (digitsVal hh.data : Int) * 60 + (digitsVal mm.data : Int)
          some (if sgn = '-' then -v else v)
        | _ => none
      | none => none
    else none
  | [] => none

/-- `new Date(string)` (V8) on the date strings `assembleIsoDate` produces:
"YYYY-MM-DDTHH:MM:SS.F+(Z|±HH:MM|±HHMM)".  Components are validated (month
1..12, day within the month, time fields in range, with hour 24 allowed when
minutes, seconds and milliseconds are zero); fractional digits beyond
milliseconds are truncated, shorter fractions are scaled.  Out-of-range
components give an Invalid Date (`none`).  Modelled only for this shape: the
deserializer never builds any other. -/
def jsDateParse (s : String) : Option Int :=
  match read4 s.data with
  | none => none
  | some (y, r0) =>
    match r0 with
    | '-' :: r0a =>
      match read2 r0a with
      | none => none
      | some (mo, r1) =>
        match r1 with
        | '-' :: r1a =>
          match read2 r1a with
          | none => none
          | some (d, r2) =>
            match r2 with
            | 'T' :: r3 =>
              match read2 r3 with
              | none => none
              | some (h, r4) =>
                match r4 with
                | ':' :: r4a =>
                  match read2 r4a with
                  | none => none
                  | some (mi, r5) =>
                    match r5 with
                    | ':' :: r5a =>
                      match read2 r5a with
                      | none => none
                      | some (se, r6) =>
                        match r6 with
                        | '.' :: r6a =>
                          let fd := r6a.takeWhile Char.isDigit
                          if fd.isEmpty then none
                          else
                            let ms := digitsVal ((fd.take 3) ++
                              List.replicate (3 - fd.length) '0')
                            let rest := r6a.drop fd.length
                            let offMin : Option Int :=
                              match rest with
                              | ['Z'] => some 0
                              | _ => parseOffsetSuffix rest
                            match offMin with
                            | none => none
                            | some off =>
                              let yv : Int := digitsVal y.data
                              let mov : Int := digitsVal mo.data
                              let dv : Int := digitsVal d.data
                              let hv : Int := digitsVal h.data
                              let miv : Int := digitsVal mi.data
                              let sev : Int := digitsVal se.data
                              if 1 ≤ mov && mov ≤ 12 && 1 ≤ dv &&
                                  dv ≤ daysInMonth yv mov &&
                                  ((hv ≤ 23 && miv ≤ 59 && sev ≤ 59) ||
                                   (hv = 24 && miv = 0 && sev = 0 && ms = 0)) then
                                some (daysFromCivil yv mov dv * 86400000 +
                                  hv * 3600000 + miv * 60000 + sev * 1000 + ms -
                                  off * 60000)
                              else none
                        | _ => none
                    | _ => none
                | _ => none
            | _ => none
        | _ => none
    | _ => none

/-- DateFormatter.prototype.decodeIso8601: match the ISO8601 pattern anywhere
in the text (throwing "Expected a ISO8601 datetime ..." when it matches
nowhere), assemble the normalized date string — applying the current machine
offset when the text carries none — and construct a Date from it. -/
def decodeIso8601 (tz : TzOffset) (time : String) : Except String (Option Int) :=
  match isoSearch time.data with
  | none => .error ("Expected a ISO8601 datetime but got " ++ sq ++ time ++ sq)
  | some caps => .ok (jsDateParse (assembleIsoDate tz caps))

/-- DateFormatter.prototype.encodeIso8601 with the default options
{colons: true, hyphens: false, local: true, ms: false, offset: false} (the
exported instance the serializer uses): local calendar fields, dates joined
without hyphens, times with colons, no milliseconds, and no suffix (local
without offset).  An Invalid Date has NaN fields, each printing "NaN". -/
def encodeIso8601 (tz : TzOffset) (ts : Option Int) : String :=
  match ts with
  | none => "NaNNaNNaNTNaN:NaN:NaN"
  | some t =>
    let lt := t - tz * 60000
    let (y, mo, d, h, mi, s, _) := civilFromMs lt
    natToString y.toNat ++ pad2 mo.toNat ++ pad2 d.toNat ++ "T" ++
      pad2 h.toNat ++ ":" ++ pad2 mi.toNat ++ ":" ++ pad2 s.toNat

/-!
## Deserializer (src/unnamed/part_000)

The Deserializer is an event-driven state machine over the tokenizer events
opentag / text / cdata / closetag / end / error (tag names pre-normalized to
upper case by the sax stream).  JS arrays push and pop at the end, so the
value stack and the marks stack are Lean lists in the same order: push is
`++ [x]`, pop reads `getLast?` and drops the last element, and `slice(mark)`
is `drop mark`.  The `callback` invocations are modelled as a delivered
`Outcome`; the `encoding` field configures the external stream and is not
modelled. -/

/-- The envelope-type flag (`this.type`). -/
inductive MsgKind where
  | methodcall
  | methodresponse
deriving DecidableEq

/-- The response-kind flag (`this.responseType`). -/
inductive RespKind where
  | params
  | fault
deriving DecidableEq

/-- The Deserializer's mutable fields. -/
structure DState where
  type : Option MsgKind
  responseType : Option RespKind
  stack : List XVal
  marks : List Nat
  data : List String
  methodname : Option String
  value : Bool
  error : Option String

/-- The constructor's initial state. -/
def initState : DState :=
  { type := none, responseType := none, stack := [], marks := [], data := [],
    methodname := none, value := false, error := none }

/-- A tokenizer / stream event as the Deserializer's handlers receive it. -/
inductive Event where
  | opentag (name : String)
  | text (chunk : String)
  | cdata (chunk : String)
  | closetag (name : String)
  | done
  | errorEv (msg : String)

/-- One callback invocation: success with the value stack, a fault built from
the first stack entry, or an error (carrying the Error's message). -/
inductive Outcome where
  | success (vals : List XVal)
  | faultOutcome (entry : XVal)
  | failure (msg : String)

/-- onOpentag: ARRAY and STRUCT push the current stack length onto marks; the
text buffer is cleared on every open tag; the bare-value flag records whether
this tag is VALUE. -/
def onOpentag (s : DState) (name : String) : DState :=
  { s with
    marks := if name = "ARRAY" || name = "STRUCT" then s.marks ++ [s.stack.length] else s.marks,
    data := [],
    value := name == "VALUE" }

/-- onText and onCDATA: append the chunk to the text buffer. -/
def onText (s : DState) (chunk : String) : DState :=
  { s with data := s.data ++ [chunk] }

/-- onError: the first error is recorded and delivered; later ones are
dropped. -/
def onError (s : DState) (msg : String) : DState × Option Outcome :=
  match s.error with
  | none => ({ s with error := some msg }, some (.failure msg))
  | some _ => (s, none)

/-- push + `this.value = false` (the tail every successful typed-close helper
runs). -/
def pushValue (s : DState) (v : XVal) : DState :=
  { s with stack := s.stack ++ [v], value := false }

/-- endBoolean: the text must be exactly "1" or "0". -/
def endBoolean (s : DState) (data : String) : Except String DState :=
  if data = "1" then .ok (pushValue s (.vbool true))
  else if data = "0" then .ok (pushValue s (.vbool false))
  else .error ("Illegal boolean value " ++ sq ++ data ++ sq)

/-- endInt (INT and I4): parseInt(data, 10), throwing on NaN. -/
def endInt (s : DState) (data : String) : Except String DState :=
  match jsParseInt10 data with
  | none => .error ("Expected an integer but got " ++ sq ++ data ++ sq)
  | some n => .ok (pushValue s (.vint n))

/-- endDouble: parseFloat(data), throwing on NaN; the value pushed is the JS
number parseFloat returns, carried as its accepted literal. -/
def endDouble (s : DState) (data : String) : Except String DState :=
  if jsParseFloatAccepts data then .ok (pushValue s (.vdouble (jsParseFloatLiteral data)))
  else .error ("Expected a double but got " ++ sq ++ data ++ sq)

/-- endString (STRING and NAME, and the tail of endI8 and endValue): push the
raw text. -/
def endString (s : DState) (data : String) : DState :=
  pushValue s (.vstr data)

/-- endArray: pop the top mark (`pop` of an empty marks stack leaves it empty
and yields undefined, which throws), slice the stack from it, and replace that
segment by the array. -/
def endArray (s : DState) : Except String DState :=
  match s.marks.getLast? with
  | none => .error "Array mark stack underflow"
  | some mark =>
    .ok { s with
      stack := s.stack.take mark ++ [.varr (XValList.ofList (s.stack.drop mark))],
      marks := s.marks.dropLast,
      value := false }

/-- The endStruct loop: items at even positions are coerced to string keys
(`String(items[i])`), odd positions are the paired values (`items[i + 1]`,
undefined when the segment has odd length); assignment overwrites the value of
an existing key in place and appends new keys. -/
def objAssign (o : XFieldList) (k : String) (v : XVal) : XFieldList :=
  match o with
  | .fnil => .fcons k v .fnil
  | .fcons k0 v0 rest =>
    if k0 = k then .fcons k0 v rest else .fcons k0 v0 (objAssign rest k v)

/-- The `for (i = 0; i < items.length; i += 2)` loop of endStruct. -/
def structLoop (tz : TzOffset) : List XVal → XFieldList → XFieldList
  | [], acc => acc
  | [k], acc => objAssign acc (jsToString tz k) .vundef
  | k :: v :: rest, acc => structLoop tz rest (objAssign acc (jsToString tz k) v)

/-- endStruct: pop the top mark, pair the stack segment above it into an
object, and replace the segment by that object. -/
def endStruct (tz : TzOffset) (s : DState) : Except String DState :=
  match s.marks.getLast? with
  | none => .error "Struct mark stack underflow"
  | some mark =>
    .ok { s with
      stack := s.stack.take mark ++ [.vobj (structLoop tz (s.stack.drop mark) .fnil)],
      marks := s.marks.dropLast,
      value := false }

/-- endBase64: Buffer.from(data, "base64") — total, never throws. -/
def endBase64 (s : DState) (data : String) : DState :=
  pushValue s (.vbuf (bufferFromBase64 data))

/-- endDateTime: decodeIso8601, which throws on unmatched text. -/
def endDateTime (tz : TzOffset) (s : DState) (data : String) : Except String DState :=
  match decodeIso8601 tz data with
  | .error msg => .error msg
  | .ok d => .ok (pushValue s (.vdate d))

/-- endI8: the text must match /^-?\d+$/; on success the raw text is pushed
via endString (kept as a string to preserve 64-bit range safety). -/
def endI8 (s : DState) (data : String) : Except String DState :=
  if i8Shape data then .ok (endString s data)
  else .error ("Expected integer (I8) value but got " ++ sq ++ data ++ sq)

/-- endValue: only when the bare-value flag is still set is the buffered text
pushed as an implicit string. -/
def endValue (s : DState) (data : String) : DState :=
  if s.value then endString s data else s

/-- endNil: push null regardless of buffered text. -/
def endNil (s : DState) : DState :=
  pushValue s .vnull

/-- The onClosetag switch.  DATA, PARAM and MEMBER are ignored by design, and
unknown tags are logged and ignored (console.warn is external output). -/
def closeDispatch (tz : TzOffset) (s : DState) (el : String) (data : String) :
    Except String DState :=
  match el with
  | "BOOLEAN" => endBoolean s data
  | "INT" | "I4" => endInt s data
  | "I8" => endI8 s data
  | "DOUBLE" => endDouble s data
  | "STRING" | "NAME" => .ok (endString s data)
  | "ARRAY" => endArray s
  | "STRUCT" => endStruct tz s
  | "BASE64" => .ok (endBase64 s data)
  | "DATETIME.ISO8601" => endDateTime tz s data
  | "VALUE" => .ok (endValue s data)
  | "PARAMS" => .ok { s with responseType := some .params }
  | "FAULT" => .ok { s with responseType := some .fault }
  | "METHODRESPONSE" => .ok { s with type := some .methodresponse }
  | "METHODNAME" => .ok { s with methodname := some data }
  | "METHODCALL" => .ok { s with type := some .methodcall }
  | "NIL" => .ok (endNil s)
  | _ => .ok s

/-- onClosetag: join the buffered chunks, dispatch on the tag, and route any
thrown error through onError. -/
def onClosetag (tz : TzOffset) (s : DState) (el : String) : DState × Option Outcome :=
  match closeDispatch tz s el (String.join s.data) with
  | .ok s2 => (s2, none)
  | .error msg => onError s msg

/-- onDone: nothing once an error was delivered; an unset envelope type or an
unclosed array/struct is an invalid message; a fault response delivers a fault
built from the first stack entry (undefined when the stack is empty);
otherwise the value stack is delivered. -/
def onDone (s : DState) : DState × Option Outcome :=
  match s.error with
  | some _ => (s, none)
  | none =>
    if s.type = none || !s.marks.isEmpty then
      (s, some (.failure "Invalid XML-RPC message"))
    else if s.responseType = some .fault then
      (s, some (.faultOutcome (s.stack.getD 0 .vundef)))
    else
      (s, some (.success s.stack))

/-- One event through the corresponding sax handler. -/
def step (tz : TzOffset) (s : DState) : Event → DState × Option Outcome
  | .opentag name => (onOpentag s name, none)
  | .text chunk => (onText s chunk, none)
  | .cdata chunk => (onText s chunk, none)
  | .closetag el => onClosetag tz s el
  | .done => onDone s
  | .errorEv msg => onError s msg

/-- Run a whole event sequence, collecting every delivered outcome with the
state at its delivery (the wrapped callbacks read the Deserializer's fields at
callback time). -/
def runEvents (tz : TzOffset) (s : DState) : List Event → DState × List (DState × Outcome)
  | [] => (s, [])
  | e :: rest =>
    let (s2, out) := step tz s e
    let (sF, outs) := runEvents tz s2 rest
    (sF, (match out with
          | some o => [(s2, o)]
          | none => []) ++ outs)

/-- JS object property read (`fault?.faultString`): the field's value, `none`
for a missing field or a non-object. -/
def getField (v : XVal) (k : String) : Option XVal :=
  match v with
  | .vobj fs => lookupField fs k
  | _ => none
where
  lookupField : XFieldList → String → Option XVal
    | .fnil, _ => none
    | .fcons k0 v0 rest, k => if k0 = k then some v0 else lookupField rest k

/-- JS truthiness of a value (the `fault?.faultString ?` test).  A double is
truthy unless its literal denotes zero; literals with a non-zero digit and a
zero exponent are a corner this approximation gets wrong, and nothing in the
verified claims reaches it. -/
def jsTruthy : XVal → Bool
  | .vnull => false
  | .vundef => false
  | .vbool b => b
  | .vint n => n ≠ 0
  | .vdouble lit => lit.data.any fun c => c.isDigit && c ≠ '0'
  | .vstr s => s ≠ ""
  | _ => true

/-- The message of the Error createFault builds from the first stack entry:
"XML-RPC fault", plus ": " and the faultString member when that member is
truthy (string concatenation coerces it with ToString). -/
def createFaultMsg (tz : TzOffset) (entry : XVal) : String :=
  "XML-RPC fault" ++
    (match getField entry "faultString" with
     | some v => if jsTruthy v then ": " ++ jsToString tz v else ""
     | none => "")

/-- The deserializeMethodResponse callback wrapper: an error is passed
through (a fault outcome arrives as the fault Error createFault built); a
result with more than one param, a wrong envelope type or an unset
response-kind is rejected; otherwise the single first value is delivered
(undefined when the params list is empty). -/
def methodResponseWrap (tz : TzOffset) : DState × Outcome → Except String XVal
  | (_, .failure msg) => .error msg
  | (_, .faultOutcome entry) => .error (createFaultMsg tz entry)
  | (st, .success vals) =>
    if vals.length > 1 then .error "Response has more than one param"
    else if st.type ≠ some .methodresponse then .error "Not a method response"
    else if st.responseType = none then .error "Invalid method response"
    else .ok (vals.getD 0 .vundef)

/-- deserializeMethodResponse over an event sequence: the user callback's
first invocation, `none` when no outcome is ever delivered. -/
def deserializeMethodResponse (tz : TzOffset) (events : List Event) :
    Option (Except String XVal) :=
  ((runEvents tz initState events).2.head?).map (methodResponseWrap tz)

/-!
## Serializer (src/serializer.mts)

The serializer walks the value with an explicit frame stack and emits into an
xmlbuilder cursor.  The XML writer is external, so the output is modelled as
the abstract element tree the xmlbuilder calls construct; the iterative walk
is translated as recursion computing the same tree (each iteration either
emits one simple value under a fresh `value` element, or pushes one child
frame of a compound, exactly once per child, in order).

In `getNextItemsFrame` the struct branch computes
`member = frame.xml.ele("member").ele("name")` — the NAME element — writes the
key's text into it, and DISCARDS the result of `.up()`, so the child frame's
cursor is the name element: each member's `value` element is emitted as a
child of `name`, after the key text, not as its sibling.  The model reproduces
this faithfully. -/

mutual

/-- The abstract XML tree the xmlbuilder calls build: elements with ordered
children, text nodes and CDATA nodes. -/
inductive XmlNode where
  | elem (name : String) (children : XmlNodeList)
  | textN (s : String)
  | cdataN (s : String)

/-- Ordered children of an element. -/
inductive XmlNodeList where
  | nil
  | cons (head : XmlNode) (tail : XmlNodeList)

end

/-- Append two child lists. -/
def XmlNodeList.append : XmlNodeList → XmlNodeList → XmlNodeList
  | .nil, ys => ys
  | .cons x xs, ys => .cons x (XmlNodeList.append xs ys)

/-- The serializer's CDATA test /^(?![^<&]*]]>[^<&]*)[^<&]*$/, written as the
regex's denotation on the character list: the lookahead matches when "]]>"
occurs after a prefix free of '<' and '&' (its trailing [^<&]* can always
match empty), and the main body requires every character to avoid '<' and
'&'. -/
def cdataLookahead : List Char → Bool
  | [] => false
  | l@(c :: rest) =>
    (']' :: ']' :: '>' :: []).isPrefixOf l || (c ≠ '<' && c ≠ '&' && cdataLookahead rest)

/-- illegalChars.test(value): true when the value is free of '<' and '&' and
the lookahead finds no "]]>" behind a clean prefix. -/
def illegalCharsTest (s : String) : Bool :=
  (s.data.all fun c => c ≠ '<' && c ≠ '&') && !cdataLookahead s.data

/-- Plain substring occurrence of the CDATA terminator "]]>", independent of
any cleanliness condition (used to state what the branch condition amounts
to). -/
def hasCdataEnd : List Char → Bool
  | [] => false
  | l@(_ :: rest) => (']' :: ']' :: '>' :: []).isPrefixOf l || hasCdataEnd rest

/-- appendString: an empty string emits an empty string element; a value
failing the illegalChars test is written as a CDATA section (xmlbuilder's
`.d`); otherwise it is written as text. -/
def appendString (value : String) : XmlNode :=
  if value.length = 0 then .elem "string" .nil
  else if !illegalCharsTest value then .elem "string" (.cons (.cdataN value) .nil)
  else .elem "string" (.cons (.textN value) .nil)

/-- appendNumber for the integral case (`value % 1 === 0`): an int element
whose text is the number's ToString. -/
def appendIntNumber (n : Int) : XmlNode :=
  .elem "int" (.cons (.textN (jsIntToString n)) .nil)

mutual

/-- serializeValue restricted to one value: the `value` element the walk emits
for it (the walk always creates the `value` element before dispatching on the
runtime type, so an unsupported kind — here JS undefined — leaves it empty).
A Date is encoded with the exported DateFormatter instance's default options;
a non-integral number (`vdouble`) takes the double branch of appendNumber.
CustomType values are not modelled (nothing in the claims builds one). -/
def serializeValue (tz : TzOffset) : XVal → XmlNode
  | .vbool b => .elem "value" (.cons (.elem "boolean" (.cons (.textN (if b then "1" else "0")) .nil)) .nil)
  | .vstr s => .elem "value" (.cons (appendString s) .nil)
  | .vint n => .elem "value" (.cons (appendIntNumber n) .nil)
  | .vdouble lit => .elem "value" (.cons (.elem "double" (.cons (.textN lit) .nil)) .nil)
  | .vnull => .elem "value" (.cons (.elem "nil" .nil) .nil)
  | .vdate ts => .elem "value" (.cons (.elem "dateTime.iso8601" (.cons (.textN (encodeIso8601 tz ts)) .nil)) .nil)
  | .vbuf bs => .elem "value" (.cons (.elem "base64" (.cons (.textN (bufferToBase64 bs)) .nil)) .nil)
  | .vundef => .elem "value" .nil
  | .varr xs => .elem "value" (.cons (.elem "array" (.cons (.elem "data" (serializeItems tz xs)) .nil)) .nil)
  | .vobj fields => .elem "value" (.cons (.elem "struct" (serializeMembers tz fields)) .nil)
termination_by structural v => v

/-- The array branch: one `value` child of `data` per element, in order. -/
def serializeItems (tz : TzOffset) : XValList → XmlNodeList
  | .nil => .nil
  | .cons x rest => .cons (serializeValue tz x) (serializeItems tz rest)
termination_by structural l => l

/-- The struct branch as getNextItemsFrame emits it: per key one `member`
whose `name` child holds the key's text AND, nested inside the name (the
discarded `.up()`), the member's `value` element. -/
def serializeMembers (tz : TzOffset) : XFieldList → XmlNodeList
  | .fnil => .nil
  | .fcons k v rest =>
    .cons
      (.elem "member"
        (.cons (.elem "name" (.cons (.textN k) (.cons (serializeValue tz v) .nil))) .nil))
      (serializeMembers tz rest)
termination_by structural l => l

end

/-- serializeMethodResponse: methodResponse / params / param wrapping the
value (the xml cursor serializeValue receives is the `param` element). -/
def serializeMethodResponse (tz : TzOffset) (v : XVal) : XmlNode :=
  .elem "methodResponse"
    (.cons (.elem "params" (.cons (.elem "param" (.cons (serializeValue tz v) .nil)) .nil)) .nil)

/-!
## The wire boundary

The document tree is serialized to XML text by xmlbuilder and tokenized back
by sax; per the collaborator contracts both are modelled as the in-order
event linearization of the tree, with tag names normalized to upper case (the
non-strict sax stream's looseCase).  An empty text node contributes no
characters, hence no text event. -/

/-- Upper-casing of a tag name (the sax stream's looseCase normalization). -/
def upperName (s : String) : String := String.mk (s.data.map Char.toUpper)

mutual

/-- Tokenizer events of a document tree, in document order. -/
def linearize : XmlNode → List Event
  | .elem name children =>
    .opentag (upperName name) :: linearizeList children ++ [.closetag (upperName name)]
  | .textN s => if s = "" then [] else [.text s]
  | .cdataN s => [.cdata s]
termination_by structural n => n

/-- Events of a child list, in order. -/
def linearizeList : XmlNodeList → List Event
  | .nil => []
  | .cons x rest => linearize x ++ linearizeList rest
termination_by structural l => l

end

/-- Encode a value as a method response document and decode that document's
event stream (ending with the stream's end event) with a fresh Deserializer:
the round trip of the spec's `decode(encode(v))`. -/
def roundTripResponse (tz : TzOffset) (v : XVal) : Option (Except String XVal) :=
  deserializeMethodResponse tz (linearize (serializeMethodResponse tz v) ++ [.done])

/-!
## Helper lemmas
-/

/-- On a list free of '<' and '&', the regex lookahead is plain substring
occurrence of "]]>". -/
theorem cdataLookahead_eq_hasCdataEnd (l : List Char)
    (h : (l.all fun c => c ≠ '<' && c ≠ '&') = true) :
    cdataLookahead l = hasCdataEnd l := by
  induction l with
  | nil => rfl
  | cons c rest ih =>
    simp only [List.all_cons, Bool.and_eq_true] at h
    simp only [cdataLookahead, hasCdataEnd, ih h.2, h.1]
    simp

/-- Character-cleanliness as the absence of '<' and '&'. -/
theorem all_clean_iff (l : List Char) :
    ((l.all fun c => c ≠ '<' && c ≠ '&') = true) ↔ ('<' ∉ l ∧ '&' ∉ l) := by
  rw [List.all_eq_true]
  constructor
  · intro h
    constructor
    · intro hm
      have := h '<' hm
      simp at this
    · intro hm
      have := h '&' hm
      simp at this
  · rintro ⟨h1, h2⟩ x hx
    have hx1 : x ≠ '<' := fun he => h1 (he ▸ hx)
    have hx2 : x ≠ '&' := fun he => h2 (he ▸ hx)
    simp [hx1, hx2]

/-- parseInt yields NaN exactly on non-numeric text. -/
theorem jsParseInt10_none_iff (t : String) :
    jsParseInt10 t = none ↔ numericText t = false := by
  unfold jsParseInt10 numericText
  cases hsplit : splitSign (t.data.dropWhile isJsWhite) with
  | mk neg cs =>
    cases cs with
    | nil => simp
    | cons c rest =>
      cases hc : c.isDigit <;> simp [List.takeWhile_cons, hc]

/-- The I8 pattern accepts exactly an optional minus followed by one or more
digits and nothing else. -/
theorem i8Shape_iff (t : String) :
    i8Shape t = true ↔
      ∃ ds, ds ≠ [] ∧ (∀ c ∈ ds, c.isDigit = true) ∧
        (t.data = ds ∨ t.data = '-' :: ds) := by
  have hiff : ∀ (l : List Char),
      (!l.isEmpty && l.all Char.isDigit) = true ↔ (l ≠ [] ∧ ∀ c ∈ l, c.isDigit = true) := by
    intro l
    cases l with
    | nil => simp
    | cons a as => simp [List.all_eq_true]
  unfold i8Shape
  split
  next rest heq =>
    rw [hiff rest]
    constructor
    · rintro ⟨hne, hdig⟩
      exact ⟨rest, hne, hdig, Or.inr heq⟩
    · rintro ⟨ds, hne, hdig, h | h⟩
      · have hm : ('-' : Char) ∈ ds := by
          rw [← h, heq]
          exact List.mem_cons_self _ _
        have hd := hdig '-' hm
        simp at hd
      · rw [heq] at h
        injection h with _ h2
        subst h2
        exact ⟨hne, hdig⟩
  next cs heq =>
    rw [hiff t.data]
    constructor
    · rintro ⟨hne, hdig⟩
      exact ⟨t.data, hne, hdig, Or.inl rfl⟩
    · rintro ⟨ds, hne, hdig, h | h⟩
      · rw [h]
        exact ⟨hne, hdig⟩
      · exact absurd h (fun hh => heq ds hh)

/-!
## The claims
-/

/-- C1: deserializing the serializer's output for a supported value yields a
structurally equal value.  The code violates this for every non-empty struct:
`getNextItemsFrame` discards the `.up()` result after writing the member
name, so the member's `value` element is emitted inside the `name` element;
decoding such a document buffers the nested int's text, pushes the int first
and then re-pushes its text as the NAME string, so `{a: 1}` comes back as
`{"1": "1"}`.  This theorem evaluates the full encode–decode pipeline at that
failing input. -/
theorem roundTripResponse_struct_bug :
    roundTripResponse 0 (.vobj (.fcons "a" (.vint 1) .fnil)) =
      some (.ok (.vobj (.fcons "1" (.vstr "1") .fnil))) ∧
    XVal.vobj (.fcons "1" (.vstr "1") .fnil) ≠ XVal.vobj (.fcons "a" (.vint 1) .fnil) := by
  refine ⟨rfl, ?_⟩
  intro h
  injection h with h1
  injection h1 with hk hv
  exact absurd hk (by decide)

/-- C2 (counterexample): the string "]]>" contains neither '<' nor '&', yet
appendString writes it as a CDATA section, not as plain text — the
illegalChars regex also fails on a clean string containing the CDATA
terminator. -/
theorem appendString_cdataEnd_counterexample :
    appendString (String.mk [']', ']', '>']) =
      .elem "string" (.cons (.cdataN (String.mk [']', ']', '>'])) .nil) ∧
    ¬ (String.mk [']', ']', '>']).data.contains '<' ∧
    ¬ (String.mk [']', ']', '>']).data.contains '&' ∧
    appendString (String.mk [']', ']', '>']) ≠
      .elem "string" (.cons (.textN (String.mk [']', ']', '>'])) .nil) := by
  refine ⟨rfl, by decide, by decide, ?_⟩
  intro h
  injection h with hn hc
  injection hc with hh
  injection hh

/-- C2 (amended): an empty string emits an empty string element; a non-empty
string is written as a CDATA section when it contains '<', '&' or the CDATA
terminator "]]>", and as plain text otherwise. -/
theorem appendString_branches (s : String) :
    appendString s =
      if s.length = 0 then .elem "string" .nil
      else if '<' ∈ s.data ∨ '&' ∈ s.data ∨ hasCdataEnd s.data
      then .elem "string" (.cons (.cdataN s) .nil)
      else .elem "string" (.cons (.textN s) .nil) := by
  unfold appendString illegalCharsTest
  by_cases hlen : s.length = 0
  · simp [hlen]
  · rw [if_neg hlen, if_neg hlen]
    by_cases hclean : (s.data.all fun c => c ≠ '<' && c ≠ '&') = true
    · have hco := (all_clean_iff s.data).1 hclean
      rw [cdataLookahead_eq_hasCdataEnd s.data hclean, hclean]
      cases hend : hasCdataEnd s.data
      · simp [hco.1, hco.2]
      · simp
    · have hall : (s.data.all fun c => c ≠ '<' && c ≠ '&') = false := by
        cases h : s.data.all fun c => c ≠ '<' && c ≠ '&'
        · rfl
        · exact absurd h hclean
      have hmem : '<' ∈ s.data ∨ '&' ∈ s.data := by
        by_contra hno
        push_neg at hno
        exact hclean ((all_clean_iff s.data).2 ⟨hno.1, hno.2⟩)
      have hcond : '<' ∈ s.data ∨ '&' ∈ s.data ∨ hasCdataEnd s.data := by
        rcases hmem with h | h
        · exact Or.inl h
        · exact Or.inr (Or.inl h)
      rw [if_pos hcond, hall]
      simp

/-- C8: the datetime decoder applies the current local machine offset when the
text carries none.  The code violates this for real time zones ahead of
UTC by a non-whole number of hours: formatCurrentOffset computes
Math.abs(Math.floor(offset / 60)) hours, so getTimezoneOffset() = −330
(UTC+05:30, e.g. India) is rendered "+06:30" and decode applies an offset of
+390 minutes instead of the actual +330.  With the clock pinned to UTC
(offset 0) the claim's scenario does hold: "20240102T03:04:05" decodes to
2024-01-02T03:04:05Z with the missing fraction defaulted to zero. -/
theorem decodeIso8601_offset_bug :
    decodeIso8601 (-330) "20240102T03:04:05" = .ok (some 1704141245000) ∧
    formatCurrentOffset (-330) = "+06:30" ∧
    (1704141245000 : Int) =
      (daysFromCivil 2024 1 2 * 86400000 + 3 * 3600000 + 4 * 60000 + 5 * 1000) - 390 * 60000 ∧
    (1704141245000 : Int) ≠
      (daysFromCivil 2024 1 2 * 86400000 + 3 * 3600000 + 4 * 60000 + 5 * 1000) - 330 * 60000 ∧
    decodeIso8601 0 "20240102T03:04:05" =
      .ok (some (daysFromCivil 2024 1 2 * 86400000 + 3 * 3600000 + 4 * 60000 + 5 * 1000)) := by
  exact ⟨rfl, rfl, by decide, by decide, rfl⟩

/-- C3: closing INT or I4 parses the buffered text as a base-10 signed
integer and pushes the result, and fails with the MalformedValue error
("Expected an integer but got ...") exactly when the text is non-numeric —
parseInt yields NaN precisely when no digit follows the optional white space
and sign. -/
theorem endInt_malformed_exactly (tz : TzOffset) (s : DState) :
    (jsParseInt10 (String.join s.data) = none ↔ numericText (String.join s.data) = false)
    ∧ (∀ n, jsParseInt10 (String.join s.data) = some n →
        step tz s (.closetag "INT") =
          ({ s with stack := s.stack ++ [.vint n], value := false }, none) ∧
        step tz s (.closetag "I4") =
          ({ s with stack := s.stack ++ [.vint n], value := false }, none))
    ∧ (jsParseInt10 (String.join s.data) = none → s.error = none →
        step tz s (.closetag "INT") =
          ({ s with
              error := some ("Expected an integer but got " ++ sq ++ String.join s.data ++ sq) },
            some (.failure
              ("Expected an integer but got " ++ sq ++ String.join s.data ++ sq))) ∧
        step tz s (.closetag "I4") =
          ({ s with
              error := some ("Expected an integer but got " ++ sq ++ String.join s.data ++ sq) },
            some (.failure
              ("Expected an integer but got " ++ sq ++ String.join s.data ++ sq)))) := by
  refine ⟨jsParseInt10_none_iff _, ?_, ?_⟩
  · intro n hn
    constructor <;> simp [step, onClosetag, closeDispatch, endInt, hn, pushValue]
  · intro hn herr
    constructor <;> simp [step, onClosetag, closeDispatch, endInt, hn, onError, herr]

/-- C3 witness: the theorem applied at the text "42" (pushes 42) and at the
text "x" (delivers the malformed-integer error). -/
theorem endInt_malformed_exactly_witness :
    ((step 0 { initState with data := ["42"] } (.closetag "INT")).1).stack = [.vint 42] ∧
    ((step 0 { initState with data := ["x"] } (.closetag "I4")).2).isSome = true := by
  constructor
  · have h := ((endInt_malformed_exactly 0 { initState with data := ["42"] }).2.1
      42 (by decide)).1
    rw [h]
    rfl
  · have h := ((endInt_malformed_exactly 0 { initState with data := ["x"] }).2.2
      (by decide) rfl).2
    rw [h]
    rfl

/-- C4: closing I8 succeeds exactly when the text matches an optional leading
minus followed by only digits, and then pushes the raw text itself as a
string value (no numeric coercion); otherwise it fails with the
MalformedValue error. -/
theorem endI8_raw_text (tz : TzOffset) (s : DState) :
    (i8Shape (String.join s.data) = true →
      step tz s (.closetag "I8") =
        ({ s with stack := s.stack ++ [.vstr (String.join s.data)], value := false }, none))
    ∧ (i8Shape (String.join s.data) = false → s.error = none →
      step tz s (.closetag "I8") =
        ({ s with
            error := some ("Expected integer (I8) value but got " ++ sq ++ String.join s.data ++ sq) },
          some (.failure
            ("Expected integer (I8) value but got " ++ sq ++ String.join s.data ++ sq))))
    ∧ (i8Shape (String.join s.data) = true ↔
        ∃ ds, ds ≠ [] ∧ (∀ c ∈ ds, c.isDigit = true) ∧
          ((String.join s.data).data = ds ∨ (String.join s.data).data = '-' :: ds)) := by
  refine ⟨?_, ?_, i8Shape_iff _⟩
  · intro h
    simp [step, onClosetag, closeDispatch, endI8, h, endString, pushValue]
  · intro h herr
    simp [step, onClosetag, closeDispatch, endI8, h, onError, herr]

/-- C4 witness: the theorem applied at the text "-9223372036854775808"
(pushed back as the raw string) and at the text "12.5" (malformed). -/
theorem endI8_raw_text_witness :
    step 0 { initState with data := ["-9223372036854775808"] } (.closetag "I8") =
      ({ initState with
          data := ["-9223372036854775808"],
          stack := [.vstr "-9223372036854775808"] }, none) ∧
    ((step 0 { initState with data := ["12.5"] } (.closetag "I8")).2).isSome = true := by
  constructor
  · have h := (endI8_raw_text 0 { initState with data := ["-9223372036854775808"] }).1
      (by decide)
    rw [h]
    rfl
  · have h := (endI8_raw_text 0 { initState with data := ["12.5"] }).2.1 (by decide) rfl
    rw [h]
    rfl

/-- C9: closing BASE64 never produces a decode error — the forgiving base64
decoding is total, so a Bytes value is always pushed — and of the typed
elements only STRING, NAME and NIL share this: BOOLEAN, INT, I4, I8, DOUBLE
and DATETIME.ISO8601 all deliver a MalformedValue error on suitable content
(here the text "x"). -/
theorem endBase64_never_fails (tz : TzOffset) (s : DState) :
    (step tz s (.closetag "BASE64") =
      ({ s with stack := s.stack ++ [.vbuf (bufferFromBase64 (String.join s.data))],
                value := false }, none))
    ∧ (step tz s (.closetag "STRING") =
      ({ s with stack := s.stack ++ [.vstr (String.join s.data)], value := false }, none))
    ∧ (step tz s (.closetag "NAME") =
      ({ s with stack := s.stack ++ [.vstr (String.join s.data)], value := false }, none))
    ∧ (step tz s (.closetag "NIL") =
      ({ s with stack := s.stack ++ [.vnull], value := false }, none))
    ∧ ((step tz { initState with data := ["x"] } (.closetag "BOOLEAN")).2 =
        some (.failure ("Illegal boolean value " ++ sq ++ "x" ++ sq)))
    ∧ ((step tz { initState with data := ["x"] } (.closetag "INT")).2 =
        some (.failure ("Expected an integer but got " ++ sq ++ "x" ++ sq)))
    ∧ ((step tz { initState with data := ["x"] } (.closetag "I4")).2 =
        some (.failure ("Expected an integer but got " ++ sq ++ "x" ++ sq)))
    ∧ ((step tz { initState with data := ["x"] } (.closetag "I8")).2 =
        some (.failure ("Expected integer (I8) value but got " ++ sq ++ "x" ++ sq)))
    ∧ ((step tz { initState with data := ["x"] } (.closetag "DOUBLE")).2 =
        some (.failure ("Expected a double but got " ++ sq ++ "x" ++ sq)))
    ∧ ((step tz { initState with data := ["x"] } (.closetag "DATETIME.ISO8601")).2 =
        some (.failure ("Expected a ISO8601 datetime but got " ++ sq ++ "x" ++ sq))) :=
  ⟨rfl, rfl, rfl, rfl, rfl, rfl, rfl, rfl, rfl, rfl⟩

/-- C10: closing VALUE with the bare-value flag cleared (as any nested open
tag other than VALUE leaves it) changes nothing — the value stack in
particular; only with the flag still set does it push the buffered text as an
implicit string. -/
theorem endValue_frame (tz : TzOffset) (s : DState) (name : String) :
    (s.value = false → step tz s (.closetag "VALUE") = (s, none))
    ∧ (name ≠ "VALUE" → ((step tz s (.opentag name)).1).value = false)
    ∧ (s.value = true → step tz s (.closetag "VALUE") =
        ({ s with stack := s.stack ++ [.vstr (String.join s.data)], value := false }, none)) := by
  refine ⟨?_, ?_, ?_⟩
  · intro h
    simp [step, onClosetag, closeDispatch, endValue, h]
  · intro h
    simp [step, onOpentag, h]
  · intro h
    simp [step, onClosetag, closeDispatch, endValue, h, endString, pushValue]

/-- C10 witness: the theorem applied after an open VALUE followed by a nested
open INT (flag cleared, closing VALUE is a no-op), and with the flag set
(closing VALUE pushes the implicit string). -/
theorem endValue_frame_witness :
    step 0 { initState with data := ["7"], value := false } (.closetag "VALUE") =
      ({ initState with data := ["7"], value := false }, none) ∧
    ((step 0 initState (.opentag "INT")).1).value = false ∧
    step 0 { initState with data := ["hi"], value := true } (.closetag "VALUE") =
      ({ initState with data := ["hi"], stack := [.vstr "hi"], value := false }, none) := by
  refine ⟨(endValue_frame 0 _ "INT").1 rfl, (endValue_frame 0 initState "INT").2.1 (by decide), ?_⟩
  have h := (endValue_frame 0 { initState with data := ["hi"], value := true } "INT").2.2 rfl
  rw [h]
  rfl

/-- C5: closing STRUCT pops the topmost mark, replaces the stack segment above
it by a single object built by the alternating key/value loop (even positions
coerced to string keys, odd positions the paired values, later keys
overwriting earlier ones), and in particular two members with the same name
leave one member holding the later value. -/
theorem endStruct_replaces_segment (tz : TzOffset) (s : DState) (m : Nat)
    (h : s.marks.getLast? = some m) :
    step tz s (.closetag "STRUCT") =
      ({ s with stack := s.stack.take m ++ [.vobj (structLoop tz (s.stack.drop m) .fnil)],
                marks := s.marks.dropLast, value := false }, none)
    ∧ ∀ (k : String) (v1 v2 : XVal),
        structLoop tz [.vstr k, v1, .vstr k, v2] .fnil = .fcons k v2 .fnil := by
  constructor
  · simp [step, onClosetag, closeDispatch, endStruct, h]
  · intro k v1 v2
    simp [structLoop, objAssign, jsToString]

/-- C5 witness: the theorem applied to a stack holding one prior value and a
duplicate-key member segment above mark 1. -/
theorem endStruct_replaces_segment_witness :
    step 7 { initState with
             stack := [.vbool true, .vstr "k", .vint 1, .vstr "k", .vint 2],
             marks := [1] } (.closetag "STRUCT") =
      ({ initState with stack := [.vbool true, .vobj (.fcons "k" (.vint 2) .fnil)],
                        marks := [] }, none) := by
  have h := (endStruct_replaces_segment 7
    { initState with
      stack := [.vbool true, .vstr "k", .vint 1, .vstr "k", .vint 2],
      marks := [1] } 1 rfl).1
  rw [h]
  rfl

/-- C6: when end() arrives with the envelope-type flag still unset or with an
unclosed ARRAY/STRUCT mark outstanding (and no error already delivered), the
deserializer delivers the StructuralError "Invalid XML-RPC message" rather
than a decoded result. -/
theorem done_invalid_message (tz : TzOffset) (s : DState) (h1 : s.error = none)
    (h2 : s.type = none ∨ s.marks ≠ []) :
    step tz s .done = (s, some (.failure "Invalid XML-RPC message")) := by
  have hcond : (decide (s.type = none) || !s.marks.isEmpty) = true := by
    rcases h2 with h | h
    · simp [h]
    · cases hm : s.marks
      · exact absurd hm h
      · simp [hm]
  simp [step, onDone, h1, hcond]

/-- C6 witness: the theorem applied to a state with an unclosed struct mark
(envelope type set), and to a state with no envelope type. -/
theorem done_invalid_message_witness :
    step 0 { initState with type := some .methodresponse, marks := [0] } .done =
      ({ initState with type := some .methodresponse, marks := [0] },
        some (.failure "Invalid XML-RPC message")) ∧
    step 0 initState .done = (initState, some (.failure "Invalid XML-RPC message")) := by
  constructor
  · exact done_invalid_message 0 _ rfl (Or.inr (by decide))
  · exact done_invalid_message 0 initState rfl (Or.inl rfl)

/-- endBoolean leaves the error flag unchanged when it returns normally. -/
theorem endBoolean_ok_error (s : DState) (data : String) (s2 : DState)
    (h : endBoolean s data = .ok s2) : s2.error = s.error := by
  unfold endBoolean at h
  split at h
  · injection h with h2
    subst h2
    rfl
  · split at h
    · injection h with h2
      subst h2
      rfl
    · exact absurd h (by simp)

/-- endInt leaves the error flag unchanged when it returns normally. -/
theorem endInt_ok_error (s : DState) (data : String) (s2 : DState)
    (h : endInt s data = .ok s2) : s2.error = s.error := by
  unfold endInt at h
  split at h
  · exact absurd h (by simp)
  · injection h with h2
    subst h2
    rfl

/-- endDouble leaves the error flag unchanged when it returns normally. -/
theorem endDouble_ok_error (s : DState) (data : String) (s2 : DState)
    (h : endDouble s data = .ok s2) : s2.error = s.error := by
  unfold endDouble at h
  split at h
  · injection h with h2
    subst h2
    rfl
  · exact absurd h (by simp)

/-- endArray leaves the error flag unchanged when it returns normally. -/
theorem endArray_ok_error (s : DState) (s2 : DState)
    (h : endArray s = .ok s2) : s2.error = s.error := by
  unfold endArray at h
  split at h
  · exact absurd h (by simp)
  · injection h with h2
    subst h2
    rfl

/-- endStruct leaves the error flag unchanged when it returns normally. -/
theorem endStruct_ok_error (tz : TzOffset) (s : DState) (s2 : DState)
    (h : endStruct tz s = .ok s2) : s2.error = s.error := by
  unfold endStruct at h
  split at h
  · exact absurd h (by simp)
  · injection h with h2
    subst h2
    rfl

/-- endDateTime leaves the error flag unchanged when it returns normally. -/
theorem endDateTime_ok_error (tz : TzOffset) (s : DState) (data : String) (s2 : DState)
    (h : endDateTime tz s data = .ok s2) : s2.error = s.error := by
  unfold endDateTime at h
  split at h
  · exact absurd h (by simp)
  · injection h with h2
    subst h2
    rfl

/-- endI8 leaves the error flag unchanged when it returns normally. -/
theorem endI8_ok_error (s : DState) (data : String) (s2 : DState)
    (h : endI8 s data = .ok s2) : s2.error = s.error := by
  unfold endI8 at h
  split at h
  · injection h with h2
    subst h2
    rfl
  · exact absurd h (by simp)

/-- A normally-returning close handler never writes the error flag. -/
theorem closeDispatch_ok_error (tz : TzOffset) (s : DState) (el data : String) (s2 : DState)
    (h : closeDispatch tz s el data = .ok s2) : s2.error = s.error := by
  unfold closeDispatch at h
  split at h <;>
    first
    | exact endBoolean_ok_error s data s2 h
    | exact endInt_ok_error s data s2 h
    | exact endI8_ok_error s data s2 h
    | exact endDouble_ok_error s data s2 h
    | exact endArray_ok_error s s2 h
    | exact endStruct_ok_error tz s s2 h
    | exact endDateTime_ok_error tz s data s2 h
    | (injection h with h2
       subst h2
       first
       | rfl
       | (unfold endValue
          split <;> rfl))

/-- C7 (counterexample): a text event arriving after the deserializer has
delivered an error is not ignored — it still mutates the text buffer, against
the claim that events after the first delivered error cause no further state
mutation. -/
theorem after_error_still_mutates :
    ((step 0 ((step 0 initState (.errorEv "boom")).1) (.text "x")).1).data ≠
      ((step 0 initState (.errorEv "boom")).1).data := by
  decide

/-- C7 (amended): the deserializer delivers an error outcome exactly once —
the first error event records and delivers it, and once the error flag is set
no later event of any kind delivers an outcome or changes the flag — but
events after the delivered error are not fully ignored: the non-delivering
handlers keep mutating the buffer and value stack. -/
theorem error_delivered_once (tz : TzOffset) (s : DState) (m : String) (ev : Event) :
    (s.error = some m →
      (step tz s ev).2 = none ∧ ((step tz s ev).1).error = some m)
    ∧ (s.error = none →
      step tz s (.errorEv m) = ({ s with error := some m }, some (.failure m))) := by
  constructor
  · intro h
    cases ev with
    | opentag name => exact ⟨rfl, h⟩
    | text chunk => exact ⟨rfl, h⟩
    | cdata chunk => exact ⟨rfl, h⟩
    | closetag el =>
      simp only [step, onClosetag]
      cases hd : closeDispatch tz s el (String.join s.data) with
      | ok s2 =>
        exact ⟨rfl, (closeDispatch_ok_error tz s el _ s2 hd).trans h⟩
      | error msg =>
        simp [onError, h]
    | done => simp [step, onDone, h]
    | errorEv m2 => simp [step, onError, h]
  · intro h
    simp [step, onError, h]

/-- C7 witness: the amended theorem applied after a delivered error (a later
boolean close delivers nothing and keeps the flag) and at a fresh state (the
error event delivers exactly its error). -/
theorem error_delivered_once_witness :
    (step 0 { initState with error := some "boom" } (.closetag "BOOLEAN")).2 = none ∧
    step 0 initState (.errorEv "boom") =
      ({ initState with error := some "boom" }, some (.failure "boom")) := by
  constructor
  · exact ((error_delivered_once 0 { initState with error := some "boom" } "boom"
      (.closetag "BOOLEAN")).1 rfl).1
  · exact (error_delivered_once 0 initState "boom" (.errorEv "x")).2 rfl

end NodeXmlrpc
